import Mathlib

/-!
Verification of the deal.II exception and assertion framework
(include/deal.II/base/exceptions.h) together with the trace test
(tests/lac/trace.cc), as a shallow embedding in Lean 4.

The header defines the `Assert`, `AssertThrow` and `AssertNothrow` macros,
the dispatch templates `issue_error_noreturn` / `issue_error_nothrow`, the
`ExceptionHandling` policy enum, the global `allow_abort_on_exception`
flag with its two toggles, the `DeclExceptionN` class generators and the
catalog of exception kinds.  Member function bodies of `ExceptionBase`
(`set_fields`, `what`, `generate_message`, `print_exc_data`), the toggle
bodies and `do_issue_error_nothrow` live in a source file that is not part
of this excerpt; those are modelled from the specification, and each such
definition says so in its doc comment.
-/

namespace DealII

/-- Decimal digits of a natural number, most significant first; models the
text a C++ output stream produces for an integer.  The first argument is
recursion fuel; callers pass fuel larger than the number of digits. -/
def natDigitsCore : Nat → Nat → List Char
  | 0, _ => []
  | fuel + 1, n =>
    if n < 10 then [Nat.digitChar n]
    else natDigitsCore fuel (n / 10) ++ [Nat.digitChar (n % 10)]

/-- Decimal rendering of a natural number, as written by operator<< . -/
def natToString (n : Nat) : String :=
  String.mk (natDigitsCore (n + 1) n)

/-- The location metadata stored by `ExceptionBase::set_fields`: file name,
line number, pretty-printed function, stringified condition and stringified
exception constructor expression (header, lines 122-146). -/
structure ExcFields where
  file : String
  line : Nat
  function : String
  cond : String
  excName : String
deriving Repr, DecidableEq

/-- The kind-specific payload of an exception object.  The header generates
one class per kind via the `DeclExceptionN` macros; the kinds needed by the
claims are embedded here: `ExcInternalError` (DeclExceptionMsg, fixed text,
header lines 798-813), `ExcIndexRange` (DeclException3, header lines
989-1001; `ExcIndexRangeType` instantiated at an unsigned type is
textually identical, lines 1018-1031), and the free-form message kind. -/
inductive ExcKind where
  | internalError
  | indexRange (index lower upper : Nat)
  | message (msg : String)
deriving Repr, DecidableEq

/-- An `ExceptionBase`-derived object: its kind payload, its location
fields (`none` until `set_fields` runs, matching the default-constructed
state) and the lazily cached `what_str`. -/
structure ExceptionBase where
  kind : ExcKind
  fields : Option ExcFields
  whatCache : Option String
deriving Repr, DecidableEq

/-- The fixed default text of `ExcInternalError` (header lines 798-813). -/
def excInternalErrorText : String :=
  "This exception -- which is used in many places in the library -- usually indicates that some condition which the author of the code thought must be satisfied at a certain point in an algorithm, is not fulfilled. An example would be that the first part of an algorithm sorts elements of an array in ascending order, and a second part of the algorithm later encounters an element that is not larger than the previous one.\n\nThere is usually not very much you can do if you encounter such an exception since it indicates an error in deal.II, not in your own program. Try to come up with the smallest possible program that still demonstrates the error and contact the deal.II mailing lists with it to obtain help."

/-- The clarification appended by `ExcIndexRange` exactly when the
half-open range is empty (header lines 996-1001). -/
def emptyRangeText : String :=
  " In the current case, this half-open range is in fact empty, suggesting that you are accessing an element of an empty collection such as a vector that has not been set to the correct size."

/-- `print_info`: the kind-specific explanation each generated class writes
to the stream.  Every `DeclExceptionN` body prints four spaces, then the
out-sequence, then `std::endl` (e.g. header lines 340-344). -/
def print_info : ExcKind → String
  | ExcKind.internalError => "    " ++ excInternalErrorText ++ "\n"
  | ExcKind.indexRange i lo hi =>
      "    " ++ "Index " ++ natToString i ++
      " is not in the half-open range [" ++ natToString lo ++ "," ++
      natToString hi ++ ")." ++
      (if lo = hi then emptyRangeText else "") ++ "\n"
  | ExcKind.message msg => "    " ++ msg ++ "\n"

/-- Modelled from the spec: `ExceptionBase::print_exc_data` is only
declared in the header (lines 105-106); per the spec the generic fields
block prints the file, line, function, failing condition and kind name. -/
def print_exc_data (f : ExcFields) : String :=
  "An error occurred in line <" ++ natToString f.line ++ "> of file <" ++
  f.file ++ "> in function\n    " ++ f.function ++
  "\nThe violated condition was:\n    " ++ f.cond ++
  "\nAdditional information:\nThe name of the exception was:\n    " ++
  f.excName ++ "\n"

/-- Modelled from the spec: `ExceptionBase::generate_message` is only
declared in the header (lines 165-166); per the spec it builds the generic
fields block followed by the kind-specific explanation (stack-trace capture
is platform dependent and not modelled). -/
def generate_message (e : ExceptionBase) : String :=
  match e.fields with
  | some f => print_exc_data f ++ print_info e.kind
  | none => print_info e.kind

/-- `ExceptionBase::set_fields` (declared header lines 82-87, body outside
this excerpt): populates the location metadata of the object.  Stack-trace
capture is not modelled. -/
def set_fields (e : ExceptionBase) (f : ExcFields) : ExceptionBase :=
  ExceptionBase.mk e.kind (some f) e.whatCache

/-- Modelled from the spec: `ExceptionBase::what` (declared header lines
93-94, body outside this excerpt) lazily builds the rendered message via
`generate_message`, caches it in the mutable `what_str`, and returns the
cached text on later calls; it is declared noexcept and is modelled as a
total function.  Returns the text together with the updated object. -/
def what (e : ExceptionBase) : String × ExceptionBase :=
  match e.whatCache with
  | some s => (s, e)
  | none =>
      (generate_message e,
       ExceptionBase.mk e.kind e.fields (some (generate_message e)))

/-- The observable result of running a check: control returned normally to
the caller, the process terminated via `internals::abort` (printing the
diagnostics), or an exception object propagates by `throw`. -/
inductive Outcome where
  | returnedNormally
  | aborted (diagnostics : String)
  | thrown (e : ExceptionBase)
deriving Repr, DecidableEq

/-- The `ExceptionHandling` enum (header lines 1447-1459) has underlying
type int; `abort_or_throw_on_exception` is its first enumerator.  Modelling
the underlying integer keeps the malformed-value default case of the switch
in `issue_error_noreturn` representable. -/
def abort_or_throw_on_exception : Int := 0

/-- The second enumerator of `ExceptionHandling` (header line 1458). -/
def throw_on_exception : Int := 1

/-- Events recorded while a dispatch entry point runs, in execution order:
the `set_fields` call, the branch on the handling mode, and the final
action. -/
inductive DispatchEvent where
  | setFieldsCall
  | modeBranch
  | abortCall
  | throwAction
  | logAction
deriving Repr, DecidableEq

/-- `issue_error_noreturn` (header lines 1478-1514): fills the fields of
the exception object, then switches on `handling`: in
`abort_or_throw_on_exception` mode it aborts when the global
`allow_abort_on_exception` flag is set and throws the populated object
otherwise; in `throw_on_exception` mode it throws unconditionally; any
other value falls to the `default:` label and throws a fresh
`ExcInternalError`.  The global flag is passed explicitly; the returned
event list records execution order for the dispatch-contract claims. -/
def issue_error_noreturn (handling : Int) (allowAbort : Bool)
    (file : String) (line : Nat) (function cond excName : String)
    (e : ExceptionBase) : Outcome × List DispatchEvent :=
  let e1 := set_fields e (ExcFields.mk file line function cond excName)
  if handling = abort_or_throw_on_exception then
    if allowAbort then
      (Outcome.aborted (generate_message e1),
       [DispatchEvent.setFieldsCall, DispatchEvent.modeBranch,
        DispatchEvent.abortCall])
    else
      (Outcome.thrown e1,
       [DispatchEvent.setFieldsCall, DispatchEvent.modeBranch,
        DispatchEvent.throwAction])
  else if handling = throw_on_exception then
    (Outcome.thrown e1,
     [DispatchEvent.setFieldsCall, DispatchEvent.modeBranch,
      DispatchEvent.throwAction])
  else
    (Outcome.thrown (ExceptionBase.mk ExcKind.internalError none none),
     [DispatchEvent.setFieldsCall, DispatchEvent.modeBranch,
      DispatchEvent.throwAction])

/-- Modelled from the spec: `do_issue_error_nothrow` is only declared in
the header (lines 1519-1520); per the spec and the `AssertNothrow`
documentation it prints the rendered diagnostic to the logging sink and
returns.  The sink is modelled as a list of emitted messages. -/
def do_issue_error_nothrow (e : ExceptionBase) (log : List String) :
    List String :=
  log ++ [generate_message e]

/-- `issue_error_nothrow` (header lines 1530-1546): fills the fields of
the exception object, then dispatches to `do_issue_error_nothrow`; it is
noexcept and always returns normally. -/
def issue_error_nothrow (file : String) (line : Nat)
    (function cond excName : String) (e : ExceptionBase)
    (log : List String) : Outcome × List String × List DispatchEvent :=
  let e1 := set_fields e (ExcFields.mk file line function cond excName)
  (Outcome.returnedNormally, do_issue_error_nothrow e1 log,
   [DispatchEvent.setFieldsCall, DispatchEvent.logAction])

/-- The host-side `Assert` macro (header lines 1581-1601): when the
condition is false it calls `issue_error_noreturn` in
`abort_or_throw_on_exception` mode; when the condition is true it does
nothing. -/
def assertCheck (allowAbort : Bool) (cond : Bool) (file : String)
    (line : Nat) (function condText excName : String)
    (e : ExceptionBase) : Outcome :=
  if cond then Outcome.returnedNormally
  else
    (issue_error_noreturn abort_or_throw_on_exception allowAbort file line
      function condText excName e).1

/-- The `AssertThrow` macro (header lines 1782-1813): when the condition is
false it calls `issue_error_noreturn` in `throw_on_exception` mode; when
the condition is true it does nothing. -/
def assertThrow (allowAbort : Bool) (cond : Bool) (file : String)
    (line : Nat) (function condText excName : String)
    (e : ExceptionBase) : Outcome :=
  if cond then Outcome.returnedNormally
  else
    (issue_error_noreturn throw_on_exception allowAbort file line function
      condText excName e).1

/-- The `AssertNothrow` macro (header lines 1728-1745): when the condition
is false it calls `issue_error_nothrow`; when the condition is true it does
nothing.  Returns the outcome and the logging sink. -/
def assertNothrow (cond : Bool) (file : String) (line : Nat)
    (function condText excName : String) (e : ExceptionBase)
    (log : List String) : Outcome × List String :=
  if cond then (Outcome.returnedNormally, log)
  else
    let r := issue_error_nothrow file line function condText excName e log
    (r.1, r.2.1)

/-- Modelled from the spec: `disable_abort_on_exception` (declared header
lines 1414-1415, body outside this excerpt) clears the global
`allow_abort_on_exception` flag so failed `Assert` checks throw instead of
aborting. -/
def disable_abort_on_exception (_ : Bool) : Bool := false

/-- Modelled from the spec: `enable_abort_on_exception` (declared header
lines 1425-1426, body outside this excerpt) sets the global
`allow_abort_on_exception` flag, restoring the default abort behavior. -/
def enable_abort_on_exception (_ : Bool) : Bool := true

/-- A policy toggle invocation, for stating the order-sensitive
last-write-wins behavior of the two toggles. -/
inductive Toggle where
  | disable
  | enable
deriving Repr, DecidableEq

/-- Run one toggle against the global flag. -/
def applyToggle (flag : Bool) : Toggle → Bool
  | Toggle.disable => disable_abort_on_exception flag
  | Toggle.enable => enable_abort_on_exception flag

/-- Run a sequence of toggles left to right against the global flag. -/
def applyToggles (flag : Bool) (ts : List Toggle) : Bool :=
  ts.foldl applyToggle flag

/-- `compare_less_than` (header lines 1997-2003) instantiated at two signed
operands of the same rank: `std::common_type_t` of the two types is that
type and both conversions preserve the value, so the comparison is the
mathematical one. -/
def compare_less_than_int (t u : Int) : Bool :=
  decide (t < u)

/-- The value of `static_cast<unsigned int>(t)` for a 32-bit signed `t`:
conversion to an unsigned type is reduction modulo 2^32. -/
def toUnsigned32 (t : Int) : Nat :=
  (t % (2 ^ 32 : Int)).toNat

/-- `compare_less_than` (header lines 1997-2003) instantiated at a signed
`int` and an `unsigned int`: `std::common_type_t<int, unsigned int>` is
`unsigned int`, so the signed operand is converted modulo 2^32 before the
comparison. -/
def compare_less_than_int_uint (t : Int) (u : Nat) : Bool :=
  decide (toUnsigned32 t < u)

/-- `AssertIndexRange(index, range)` (header lines 2117-2123) dispatches a
failure exactly when `compare_less_than(index, range)` is false; this is
the trigger predicate for two signed operands. -/
def assertIndexRangeTriggersInt (index range : Int) : Bool :=
  !(compare_less_than_int index range)

/-- The `AssertIndexRange` trigger predicate for a signed index and an
unsigned range. -/
def assertIndexRangeTriggersIntUint (index : Int) (range : Nat) : Bool :=
  !(compare_less_than_int_uint index range)

/-- The entries of the matrix built in tests/lac/trace.cc, line 39:
`m(i,j) = i+j`.  All values involved are small integers, which IEEE-754
doubles represent exactly, so the test is modelled over `Nat`. -/
def traceTestEntry (i j : Nat) : Nat := i + j

/-- The manual accumulation in tests/lac/trace.cc, lines 35-42: starting
from zero, loop over all `(i, j)` with `i, j < 20` and add `i+j` whenever
`i == j`. -/
def traceTestManual : Nat :=
  (List.range 20).foldl
    (fun acc i =>
      (List.range 20).foldl
        (fun acc2 j => if i = j then acc2 + traceTestEntry i j else acc2)
        acc)
    0

/-- Modelled from the spec: `FullMatrix::trace` is not part of this
excerpt (only its caller in tests/lac/trace.cc is); the spec describes it
as the library's own diagonal-sum computation over a square matrix. -/
def fullMatrixTrace (entry : Nat → Nat → Nat) (n : Nat) : Nat :=
  (List.range n).foldl (fun acc i => acc + entry i i) 0

/-- The call site `Assert(m.trace() == tr, ExcInternalError())` at
tests/lac/trace.cc line 45, with the stringified arguments the `Assert`
macro supplies there. -/
def traceAssertOutcome (allowAbort : Bool) (traceValue trValue : Nat) :
    Outcome :=
  assertCheck allowAbort (decide (traceValue = trValue)) "trace.cc" 45
    "int main()" "m.trace() == tr" "ExcInternalError()"
    (ExceptionBase.mk ExcKind.internalError none none)

/-- The exception object dispatched by the trace.cc assertion when the
condition fails: an `ExcInternalError` populated with the call-site
fields. -/
def traceFailureExc : ExceptionBase :=
  set_fields (ExceptionBase.mk ExcKind.internalError none none)
    (ExcFields.mk "trace.cc" 45 "int main()" "m.trace() == tr"
      "ExcInternalError()")

end DealII

namespace DealII

/-- The character list underlying a literally constructed string. -/
theorem data_mk (l : List Char) : (String.mk l).data = l := rfl

/-- Every character produced by `Nat.digitChar` below ten is a decimal
digit. -/
theorem digitChar_isDigit : ∀ k < 10, (Nat.digitChar k).isDigit = true := by
  decide

/-- Every character of the decimal rendering core is a decimal digit. -/
theorem natDigitsCore_isDigit :
    ∀ (fuel n : Nat) (c : Char), c ∈ natDigitsCore fuel n →
      c.isDigit = true := by
  intro fuel
  induction fuel with
  | zero => intro n c hc; simp [natDigitsCore] at hc
  | succ fuel ih =>
    intro n c hc
    by_cases h : n < 10
    · rw [natDigitsCore, if_pos h] at hc
      simp at hc
      subst hc
      exact digitChar_isDigit n h
    · rw [natDigitsCore, if_neg h] at hc
      rcases List.mem_append.mp hc with h1 | h2
      · exact ih (n / 10) c h1
      · simp at h2
        subst h2
        exact digitChar_isDigit (n % 10) (Nat.mod_lt n (by norm_num))

/-- Every character of the decimal rendering of a natural number is a
decimal digit. -/
theorem natToString_isDigit (n : Nat) :
    ∀ c ∈ (natToString n).data, c.isDigit = true := by
  intro c hc
  exact natDigitsCore_isDigit (n + 1) n c hc

/-- A list that decomposes around `mid` has `mid` as a contiguous part. -/
theorem contiguous_of_decomp {l pre mid post : List Char}
    (h : l = pre ++ mid ++ post) : mid <:+: l :=
  ⟨pre, post, h.symm⟩

/-- A pattern holding a character absent from a list is not a contiguous
part of that list. -/
theorem not_contiguous_of_mem_not_mem {c : Char} {pat l : List Char}
    (hc : c ∈ pat) (hl : c ∉ l) : ¬ (pat <:+: l) := by
  intro h
  exact hl (h.subset hc)

/-- Rendering a freshly populated exception produces the generic fields
block followed by the kind-specific explanation. -/
theorem generate_message_set_fields (e : ExceptionBase) (f : ExcFields) :
    generate_message (set_fields e f) =
      print_exc_data f ++ print_info e.kind := rfl

/-- Claim C3: a check dispatched in throw-always mode behaves identically
for both values of the global `allow_abort_on_exception` flag: neither the
result of `issue_error_noreturn` in `throw_on_exception` mode nor the
result of the `AssertThrow` macro depends on the flag. -/
theorem throw_mode_independent_of_abort_flag
    (file : String) (line : Nat) (function cond excName : String)
    (e : ExceptionBase) :
    (∀ a b : Bool,
      issue_error_noreturn throw_on_exception a file line function cond
          excName e =
        issue_error_noreturn throw_on_exception b file line function cond
          excName e) ∧
    (∀ a b c : Bool,
      assertThrow a c file line function cond excName e =
        assertThrow b c file line function cond excName e) := by
  constructor
  · intro a b
    simp [issue_error_noreturn, throw_on_exception,
      abort_or_throw_on_exception]
  · intro a b c
    cases c <;>
      simp [assertThrow, issue_error_noreturn, throw_on_exception,
        abort_or_throw_on_exception]

/-- Claim C3 witness: the two flag values give the same dispatch result at
a concrete call site. -/
theorem throw_mode_independent_of_abort_flag_witness :
    issue_error_noreturn throw_on_exception true "file.cc" 10 "void f()"
        "x > 0" "ExcMessage()"
        (ExceptionBase.mk (ExcKind.message "boom") none none) =
      issue_error_noreturn throw_on_exception false "file.cc" 10 "void f()"
        "x > 0" "ExcMessage()"
        (ExceptionBase.mk (ExcKind.message "boom") none none) :=
  (throw_mode_independent_of_abort_flag "file.cc" 10 "void f()" "x > 0"
    "ExcMessage()" (ExceptionBase.mk (ExcKind.message "boom") none none)).1
    true false

/-- Claim C5: a malformed handling value falls to the default label of the
switch in `issue_error_noreturn` and throws a fresh `ExcInternalError`;
no execution path of `issue_error_noreturn` returns normally. -/
theorem issue_error_noreturn_malformed_policy
    (handling : Int) (flag : Bool) (file : String) (line : Nat)
    (function cond excName : String) (e : ExceptionBase) :
    (handling ≠ abort_or_throw_on_exception →
      handling ≠ throw_on_exception →
      (issue_error_noreturn handling flag file line function cond excName
          e).1 =
        Outcome.thrown
          (ExceptionBase.mk ExcKind.internalError none none)) ∧
    (issue_error_noreturn handling flag file line function cond excName
        e).1 ≠ Outcome.returnedNormally := by
  constructor
  · intro h0 h1
    rw [issue_error_noreturn]
    simp [if_neg h0, if_neg h1]
  · rw [issue_error_noreturn]
    split_ifs <;> simp

/-- Claim C5 witness: the handling value 7 matches neither enumerator and
is dispatched to a thrown internal error; the outcome is not a normal
return. -/
theorem issue_error_noreturn_malformed_policy_witness :
    (issue_error_noreturn 7 true "file.cc" 3 "void f()" "x > 0"
        "ExcMessage()"
        (ExceptionBase.mk (ExcKind.message "boom") none none)).1 =
      Outcome.thrown (ExceptionBase.mk ExcKind.internalError none none) :=
  (issue_error_noreturn_malformed_policy 7 true "file.cc" 3 "void f()"
      "x > 0" "ExcMessage()"
      (ExceptionBase.mk (ExcKind.message "boom") none none)).1
    (by decide) (by decide)

/-- Claim C7: a check dispatched in log-only mode never alters control
flow: `assertNothrow` always returns normally; a true condition leaves the
logging sink untouched; a false condition appends exactly the rendered
diagnostic of the populated exception and still returns normally. -/
theorem assertNothrow_spec (cond : Bool) (file : String) (line : Nat)
    (function condText excName : String) (e : ExceptionBase)
    (log : List String) :
    ((assertNothrow cond file line function condText excName e log).1 =
      Outcome.returnedNormally) ∧
    (cond = true →
      (assertNothrow cond file line function condText excName e log).2 =
        log) ∧
    (cond = false →
      (assertNothrow cond file line function condText excName e log).2 =
        log ++ [generate_message (set_fields e
          (ExcFields.mk file line function condText excName))]) := by
  refine ⟨?_, ?_, ?_⟩ <;>
    cases cond <;>
      simp [assertNothrow, issue_error_nothrow, do_issue_error_nothrow]

/-- Claim C7 witness: at a concrete failing check the log-only dispatch
returns normally and appends one rendered diagnostic. -/
theorem assertNothrow_spec_witness :
    (assertNothrow false "file.cc" 8 "void f()" "x > 0" "ExcMessage()"
        (ExceptionBase.mk (ExcKind.message "boom") none none) []).2 =
      [] ++ [generate_message (set_fields
        (ExceptionBase.mk (ExcKind.message "boom") none none)
        (ExcFields.mk "file.cc" 8 "void f()" "x > 0" "ExcMessage()"))] :=
  (assertNothrow_spec false "file.cc" 8 "void f()" "x > 0" "ExcMessage()"
      (ExceptionBase.mk (ExcKind.message "boom") none none) []).2.2 rfl

/-- Claim C8: rendering via `what` is idempotent and cached: a second call
returns the identical text and leaves the object unchanged, and on a
not-yet-cached object the first call computes `generate_message` and
stores it in the object, so later calls (in particular after the failing
stack frame has returned) reuse the cached text.  `what` is a total
function, matching its noexcept declaration. -/
theorem what_idempotent_cached (e : ExceptionBase) :
    ((what (what e).2).1 = (what e).1 ∧
      (what (what e).2).2 = (what e).2) ∧
    (e.whatCache = none →
      (what e).1 = generate_message e ∧
      (what e).2 = ExceptionBase.mk e.kind e.fields
        (some (generate_message e))) := by
  constructor
  · cases h : e.whatCache with
    | none => simp [what, h]
    | some s => simp [what, h]
  · intro hnone
    simp [what, hnone]

/-- Claim C8 witness: on a concrete uncached exception the first call
computes and caches the rendered message, and a second call returns the
same text. -/
theorem what_idempotent_cached_witness :
    (what (ExceptionBase.mk (ExcKind.message "boom") none none)).1 =
      generate_message
        (ExceptionBase.mk (ExcKind.message "boom") none none) :=
  ((what_idempotent_cached
      (ExceptionBase.mk (ExcKind.message "boom") none none)).2 rfl).1

end DealII

namespace DealII

/-- Claim C2: in abort-or-throw mode the failing check follows the global
flag as set by the last toggle performed: after any toggle history ending
in `disable_abort_on_exception` the check throws the populated exception
(catchable); after any history ending in `enable_abort_on_exception` the
check terminates via abort; and whatever the flag, a failing
abort-or-throw check never returns to the caller. -/
theorem abort_policy_last_write_wins
    (flag0 : Bool) (ts : List Toggle) (file : String) (line : Nat)
    (function condText excName : String) (e : ExceptionBase) :
    (assertCheck (applyToggles flag0 (ts ++ [Toggle.disable])) false file
        line function condText excName e =
      Outcome.thrown (set_fields e
        (ExcFields.mk file line function condText excName))) ∧
    (assertCheck (applyToggles flag0 (ts ++ [Toggle.enable])) false file
        line function condText excName e =
      Outcome.aborted (generate_message (set_fields e
        (ExcFields.mk file line function condText excName)))) ∧
    (∀ flag, assertCheck flag false file line function condText excName e ≠
      Outcome.returnedNormally) := by
  have hd : applyToggles flag0 (ts ++ [Toggle.disable]) = false := by
    simp [applyToggles, List.foldl_append, applyToggle,
      disable_abort_on_exception]
  have he : applyToggles flag0 (ts ++ [Toggle.enable]) = true := by
    simp [applyToggles, List.foldl_append, applyToggle,
      enable_abort_on_exception]
  refine ⟨?_, ?_, ?_⟩
  · rw [hd]
    simp [assertCheck, issue_error_noreturn, abort_or_throw_on_exception]
  · rw [he]
    simp [assertCheck, issue_error_noreturn, abort_or_throw_on_exception]
  · intro flag
    cases flag <;>
      simp [assertCheck, issue_error_noreturn, abort_or_throw_on_exception]

/-- Claim C2 witness: a concrete failing check throws after a disable
toggle and aborts after a subsequent enable toggle. -/
theorem abort_policy_last_write_wins_witness :
    assertCheck (applyToggles true [Toggle.disable]) false "file.cc" 4
        "void f()" "x > 0" "ExcMessage()"
        (ExceptionBase.mk (ExcKind.message "boom") none none) =
      Outcome.thrown (set_fields
        (ExceptionBase.mk (ExcKind.message "boom") none none)
        (ExcFields.mk "file.cc" 4 "void f()" "x > 0" "ExcMessage()")) :=
  (abort_policy_last_write_wins true [] "file.cc" 4 "void f()" "x > 0"
    "ExcMessage()"
    (ExceptionBase.mk (ExcKind.message "boom") none none)).1

end DealII

namespace DealII

/-- Reduction of the dispatcher in abort-or-throw mode with the abort flag
set: print diagnostics and terminate. -/
theorem issue_error_noreturn_abort_true (file : String) (line : Nat)
    (function cond excName : String) (e : ExceptionBase) :
    issue_error_noreturn abort_or_throw_on_exception true file line
        function cond excName e =
      (Outcome.aborted (generate_message (set_fields e
          (ExcFields.mk file line function cond excName))),
        [DispatchEvent.setFieldsCall, DispatchEvent.modeBranch,
          DispatchEvent.abortCall]) := rfl

/-- Reduction of the dispatcher in abort-or-throw mode with the abort flag
cleared: throw the populated exception. -/
theorem issue_error_noreturn_abort_false (file : String) (line : Nat)
    (function cond excName : String) (e : ExceptionBase) :
    issue_error_noreturn abort_or_throw_on_exception false file line
        function cond excName e =
      (Outcome.thrown (set_fields e
          (ExcFields.mk file line function cond excName)),
        [DispatchEvent.setFieldsCall, DispatchEvent.modeBranch,
          DispatchEvent.throwAction]) := rfl

/-- Reduction of the dispatcher in throw-always mode: throw the populated
exception whatever the flag. -/
theorem issue_error_noreturn_throw (flag : Bool) (file : String)
    (line : Nat) (function cond excName : String) (e : ExceptionBase) :
    issue_error_noreturn throw_on_exception flag file line function cond
        excName e =
      (Outcome.thrown (set_fields e
          (ExcFields.mk file line function cond excName)),
        [DispatchEvent.setFieldsCall, DispatchEvent.modeBranch,
          DispatchEvent.throwAction]) := rfl

/-- Claim C4: both dispatch entry points record the `set_fields` call as
their first event and record it exactly once, before the branch on the
handling mode and before any action; consequently, in the two recognized
handling modes a thrown exception carries the populated call-site fields
and an abort prints the diagnostics of the populated exception, and the
log-only entry point always logs the rendered message of the populated
exception. -/
theorem dispatch_populates_fields_once
    (handling : Int) (flag : Bool) (file : String) (line : Nat)
    (function cond excName : String) (e : ExceptionBase)
    (log : List String) :
    ((issue_error_noreturn handling flag file line function cond excName
        e).2.head? = some DispatchEvent.setFieldsCall) ∧
    ((issue_error_noreturn handling flag file line function cond excName
        e).2.count DispatchEvent.setFieldsCall = 1) ∧
    ((issue_error_nothrow file line function cond excName e log).2.2.head?
      = some DispatchEvent.setFieldsCall) ∧
    ((issue_error_nothrow file line function cond excName e
        log).2.2.count DispatchEvent.setFieldsCall = 1) ∧
    ((handling = abort_or_throw_on_exception ∨
        handling = throw_on_exception) →
      (∀ e', (issue_error_noreturn handling flag file line function cond
          excName e).1 = Outcome.thrown e' →
        e'.fields = some (ExcFields.mk file line function cond excName)) ∧
      (∀ d, (issue_error_noreturn handling flag file line function cond
          excName e).1 = Outcome.aborted d →
        d = generate_message (set_fields e
          (ExcFields.mk file line function cond excName)))) ∧
    ((issue_error_nothrow file line function cond excName e log).2.1 =
      log ++ [generate_message (set_fields e
        (ExcFields.mk file line function cond excName))]) := by
  refine ⟨?_, ?_, rfl, rfl, ?_, rfl⟩
  · rw [issue_error_noreturn]
    split_ifs <;> rfl
  · rw [issue_error_noreturn]
    split_ifs <;> rfl
  · intro hmode
    constructor
    · intro e' he'
      rcases hmode with hm | hm <;> subst hm
      · cases flag
        · rw [issue_error_noreturn_abort_false] at he'
          cases he'
          rfl
        · rw [issue_error_noreturn_abort_true] at he'
          cases he'
      · rw [issue_error_noreturn_throw] at he'
        cases he'
        rfl
    · intro d hd
      rcases hmode with hm | hm <;> subst hm
      · cases flag
        · rw [issue_error_noreturn_abort_false] at hd
          cases hd
        · rw [issue_error_noreturn_abort_true] at hd
          cases hd
          rfl
      · rw [issue_error_noreturn_throw] at hd
        cases hd

/-- Claim C4 witness: at a concrete abort-or-throw dispatch with the flag
cleared, the thrown exception carries the populated call-site fields. -/
theorem dispatch_populates_fields_once_witness :
    ∀ e', (issue_error_noreturn abort_or_throw_on_exception false
        "file.cc" 9 "void f()" "x > 0" "ExcMessage()"
        (ExceptionBase.mk (ExcKind.message "boom") none none)).1 =
      Outcome.thrown e' →
      e'.fields = some (ExcFields.mk "file.cc" 9 "void f()" "x > 0"
        "ExcMessage()") :=
  ((dispatch_populates_fields_once abort_or_throw_on_exception false
      "file.cc" 9 "void f()" "x > 0" "ExcMessage()"
      (ExceptionBase.mk (ExcKind.message "boom") none none) []).2.2.2.2.1
    (Or.inl rfl)).1

end DealII

namespace DealII

/-- The character-level decomposition of a rendered message of a populated
exception. -/
theorem message_data_decomp (f : ExcFields) (k : ExcKind) :
    (print_exc_data f ++ print_info k).data =
      "An error occurred in line <".data ++ (natToString f.line).data ++
      "> of file <".data ++ f.file.data ++ "> in function\n    ".data ++
      f.function.data ++ "\nThe violated condition was:\n    ".data ++
      f.cond.data ++
      "\nAdditional information:\nThe name of the exception was:\n    ".data
      ++ f.excName.data ++ "\n".data ++ (print_info k).data := by
  simp [print_exc_data, String.data_append, List.append_assoc]

/-- The file name, rendered line number and condition text each occur
verbatim in the rendered message of a populated exception. -/
theorem fields_appear_in_message (f : ExcFields) (k : ExcKind) :
    f.file.data <:+: (print_exc_data f ++ print_info k).data ∧
    (natToString f.line).data <:+: (print_exc_data f ++ print_info k).data
    ∧ f.cond.data <:+: (print_exc_data f ++ print_info k).data := by
  refine ⟨⟨"An error occurred in line <".data ++ (natToString f.line).data
      ++ "> of file <".data,
      "> in function\n    ".data ++ f.function.data ++
      "\nThe violated condition was:\n    ".data ++ f.cond.data ++
      "\nAdditional information:\nThe name of the exception was:\n    ".data
      ++ f.excName.data ++ "\n".data ++ (print_info k).data, ?_⟩,
    ⟨"An error occurred in line <".data,
      "> of file <".data ++ f.file.data ++ "> in function\n    ".data ++
      f.function.data ++ "\nThe violated condition was:\n    ".data ++
      f.cond.data ++
      "\nAdditional information:\nThe name of the exception was:\n    ".data
      ++ f.excName.data ++ "\n".data ++ (print_info k).data, ?_⟩,
    ⟨"An error occurred in line <".data ++ (natToString f.line).data ++
      "> of file <".data ++ f.file.data ++ "> in function\n    ".data ++
      f.function.data ++ "\nThe violated condition was:\n    ".data,
      "\nAdditional information:\nThe name of the exception was:\n    ".data
      ++ f.excName.data ++ "\n".data ++ (print_info k).data, ?_⟩⟩ <;>
    rw [message_data_decomp] <;> simp [List.append_assoc]

/-- Claim C1: a check dispatched in throw-always mode: when the condition
is false an exception is thrown whose kind is the one supplied at the call
site and whose rendered message contains the file name, the rendered line
number and the stringified condition text verbatim; when the condition is
true no exception is thrown and the check returns normally, regardless of
the abort flag. -/
theorem assertThrow_spec (flag : Bool) (cond : Bool) (file : String)
    (line : Nat) (function condText excName : String) (k : ExcKind) :
    (cond = true →
      assertThrow flag cond file line function condText excName
          (ExceptionBase.mk k none none) =
        Outcome.returnedNormally) ∧
    (cond = false →
      ∃ ex, assertThrow flag cond file line function condText excName
          (ExceptionBase.mk k none none) = Outcome.thrown ex ∧
        ex.kind = k ∧
        file.data <:+: ((what ex).1).data ∧
        (natToString line).data <:+: ((what ex).1).data ∧
        condText.data <:+: ((what ex).1).data) := by
  constructor
  · intro h
    subst h
    rfl
  · intro h
    subst h
    refine ⟨set_fields (ExceptionBase.mk k none none)
      (ExcFields.mk file line function condText excName), rfl, rfl,
      ?_, ?_, ?_⟩
    · exact (fields_appear_in_message
        (ExcFields.mk file line function condText excName) k).1
    · exact (fields_appear_in_message
        (ExcFields.mk file line function condText excName) k).2.1
    · exact (fields_appear_in_message
        (ExcFields.mk file line function condText excName) k).2.2

/-- Claim C1 witness: a concrete failing throw-always check throws an
exception of the supplied kind whose rendered message contains the file
name, the line number and the condition text. -/
theorem assertThrow_spec_witness :
    ∃ ex, assertThrow true false "file.cc" 10 "void f()" "x > 0"
        "ExcMessage()"
        (ExceptionBase.mk (ExcKind.message "boom") none none) =
      Outcome.thrown ex ∧
      ex.kind = ExcKind.message "boom" ∧
      "file.cc".data <:+: ((what ex).1).data ∧
      (natToString 10).data <:+: ((what ex).1).data ∧
      "x > 0".data <:+: ((what ex).1).data :=
  (assertThrow_spec true false "file.cc" 10 "void f()" "x > 0"
    "ExcMessage()" (ExcKind.message "boom")).2 rfl

end DealII

namespace DealII

/-- The letter y does not occur in the decimal rendering of a natural
number. -/
theorem natToString_no_y (n : Nat) : ('y' : Char) ∉ (natToString n).data := by
  intro hy
  have := natToString_isDigit n 'y' hy
  simp at this

/-- The character-level decomposition of the kind-specific explanation of
`ExcIndexRange` when the range is not empty. -/
theorem excIndexRange_info_data_ne (i lo hi : Nat) (h : lo ≠ hi) :
    (print_info (ExcKind.indexRange i lo hi)).data =
      "    Index ".data ++ (natToString i).data ++
      " is not in the half-open range [".data ++ (natToString lo).data ++
      ",".data ++ (natToString hi).data ++ ").".data ++ "\n".data := by
  simp [print_info, String.data_append, List.append_assoc, if_neg h]

/-- Claim C6: the kind-specific rendered explanation of `ExcIndexRange`
(and of `ExcIndexRangeType`, whose out-sequence is identical) contains the
empty-range clarification text exactly when the lower bound equals the
upper bound; otherwise the message only states that the index is not in
the half-open range and the clarification is absent. -/
theorem excIndexRange_empty_clarification (i lo hi : Nat) :
    emptyRangeText.data <:+: (print_info (ExcKind.indexRange i lo hi)).data
      ↔ lo = hi := by
  constructor
  · intro h
    by_contra hne
    have hy : ('y' : Char) ∈ (print_info (ExcKind.indexRange i lo hi)).data :=
      h.subset (by decide)
    rw [excIndexRange_info_data_ne i lo hi hne] at hy
    simp only [List.mem_append] at hy
    rcases hy with ((((((h1 | h2) | h3) | h4) | h5) | h6) | h7) | h8
    · exact absurd h1 (by decide)
    · exact absurd h2 (natToString_no_y i)
    · exact absurd h3 (by decide)
    · exact absurd h4 (natToString_no_y lo)
    · exact absurd h5 (by decide)
    · exact absurd h6 (natToString_no_y hi)
    · exact absurd h7 (by decide)
    · exact absurd h8 (by decide)
  · intro h
    subst h
    refine ⟨"    Index ".data ++ (natToString i).data ++
      " is not in the half-open range [".data ++ (natToString lo).data ++
      ",".data ++ (natToString lo).data ++ ").".data, "\n".data, ?_⟩
    simp [print_info, String.data_append, List.append_assoc]

/-- Claim C6 witness: at index three against the empty range of lower and
upper bound five the clarification is present; against the range from five
to seven it is absent. -/
theorem excIndexRange_empty_clarification_witness :
    (emptyRangeText.data <:+:
        (print_info (ExcKind.indexRange 3 5 5)).data ↔ 5 = 5) ∧
    (emptyRangeText.data <:+:
        (print_info (ExcKind.indexRange 3 5 7)).data ↔ 5 = 7) :=
  ⟨excIndexRange_empty_clarification 3 5 5,
    excIndexRange_empty_clarification 3 5 7⟩

end DealII

namespace DealII

/-- The fixed internal-error explanation occurs verbatim in the rendered
message of a populated `ExcInternalError`. -/
theorem internalError_text_in_message (f : ExcFields) :
    excInternalErrorText.data <:+:
      (print_exc_data f ++ print_info ExcKind.internalError).data :=
  ⟨(print_exc_data f).data ++ "    ".data, "\n".data, by
    simp [print_info, String.data_append, List.append_assoc]⟩

set_option maxRecDepth 8000 in
/-- Claim C9 (amended): in the trace test the manually accumulated
diagonal sum equals the library's trace computation, so the assertion
condition holds and the check returns normally; and for any pair of
unequal values the triggered failure is the `ExcInternalError` populated
with the call-site data, whose rendered message contains the stringified
condition text and the fixed internal-error explanation verbatim. -/
theorem trace_test_spec :
    (fullMatrixTrace traceTestEntry 20 = traceTestManual) ∧
    (∀ flag, traceAssertOutcome flag (fullMatrixTrace traceTestEntry 20)
        traceTestManual = Outcome.returnedNormally) ∧
    (∀ a b : Nat, a ≠ b →
      traceAssertOutcome false a b = Outcome.thrown traceFailureExc ∧
      "m.trace() == tr".data <:+: ((what traceFailureExc).1).data ∧
      excInternalErrorText.data <:+: ((what traceFailureExc).1).data) := by
  refine ⟨by decide, ?_, ?_⟩
  · intro flag
    cases flag <;> rfl
  · intro a b hab
    have hd : decide (a = b) = false := decide_eq_false hab
    refine ⟨?_, ?_, ?_⟩
    · unfold traceAssertOutcome
      rw [hd]
      rfl
    · exact (fields_appear_in_message (ExcFields.mk "trace.cc" 45 "int main()"
        "m.trace() == tr" "ExcInternalError()") ExcKind.internalError).2.2
    · exact internalError_text_in_message (ExcFields.mk "trace.cc" 45
        "int main()" "m.trace() == tr" "ExcInternalError()")

/-- Claim C9 witness: at the concrete corrupted pair 380 and 381 the
check throws the populated internal error and its message contains the
condition text and the fixed explanation. -/
theorem trace_test_spec_witness :
    traceAssertOutcome false 380 381 = Outcome.thrown traceFailureExc ∧
    "m.trace() == tr".data <:+: ((what traceFailureExc).1).data ∧
    excInternalErrorText.data <:+: ((what traceFailureExc).1).data :=
  trace_test_spec.2.2 380 381 (by decide)

set_option maxRecDepth 8000 in
/-- Claim C9 counterexample: the claim as stated requires the two
differing values to appear verbatim in the rendered message; for the
corruption giving values 380 and 381, the dispatched `ExcInternalError`
message contains neither, because that kind carries no arguments. -/
theorem trace_values_absent_counterexample :
    traceAssertOutcome false 380 381 = Outcome.thrown traceFailureExc ∧
    ¬ ((natToString 380).data <:+: ((what traceFailureExc).1).data) ∧
    ¬ ((natToString 381).data <:+: ((what traceFailureExc).1).data) := by
  have h8 : ('8' : Char) ∉ ((what traceFailureExc).1).data := by decide
  exact ⟨rfl,
    not_contiguous_of_mem_not_mem (by decide) h8,
    not_contiguous_of_mem_not_mem (by decide) h8⟩

end DealII

namespace DealII

/-- Claim C10 (amended): `AssertIndexRange` dispatches a failure exactly
when `compare_less_than(index, range)` is false after conversion to the
common type; it performs no lower-bound check, so a negative signed index
below a signed range passes the check even though it lies outside the
reported half-open range from zero; a negative 32-bit signed index
converted against an unsigned range wraps to a value of at least 2^31, so
the check fails whenever the range does not exceed 2^31 — but not for
every unsigned range. -/
theorem assertIndexRange_trigger_spec :
    (∀ index range : Int,
      assertIndexRangeTriggersInt index range = false ↔ index < range) ∧
    (∀ index range : Int, index < 0 → index < range →
      assertIndexRangeTriggersInt index range = false ∧
      ¬ (0 ≤ index ∧ index < range)) ∧
    (∀ t : Int, -(2 ^ 31) ≤ t → t < 0 → 2 ^ 31 ≤ toUnsigned32 t) ∧
    (∀ t : Int, -(2 ^ 31) ≤ t → t < 0 → ∀ u : Nat, u ≤ 2 ^ 31 →
      assertIndexRangeTriggersIntUint t u = true) := by
  have hwrap : ∀ t : Int, -(2 ^ 31) ≤ t → t < 0 → 2 ^ 31 ≤ toUnsigned32 t := by
    intro t h1 h2
    unfold toUnsigned32
    omega
  refine ⟨?_, ?_, hwrap, ?_⟩
  · intro index range
    simp [assertIndexRangeTriggersInt, compare_less_than_int]
  · intro index range h1 h2
    refine ⟨?_, ?_⟩
    · simp [assertIndexRangeTriggersInt, compare_less_than_int, h2]
    · rintro ⟨h3, _⟩
      omega
  · intro t h1 h2 u hu
    have := hwrap t h1 h2
    simp [assertIndexRangeTriggersIntUint, compare_less_than_int_uint]
    omega

/-- Claim C10 witness: the signed pair of index minus five and range ten
passes the check while minus five is outside the reported range, and the
same index against the unsigned range ten fails the check. -/
theorem assertIndexRange_trigger_spec_witness :
    (assertIndexRangeTriggersInt (-5) 10 = false ∧
      ¬ ((0 : Int) ≤ -5 ∧ (-5 : Int) < 10)) ∧
    assertIndexRangeTriggersIntUint (-5) 10 = true :=
  ⟨assertIndexRange_trigger_spec.2.1 (-5) 10 (by norm_num) (by norm_num),
    assertIndexRange_trigger_spec.2.2.2 (-5) (by norm_num) (by norm_num)
      10 (by norm_num)⟩

/-- Claim C10 counterexample: the claim as stated requires every negative
signed index compared against an unsigned range to fail the check; at
index minus two against the unsigned range 2^32 - 1 the wrapped value
2^32 - 2 is below the range, so the check passes. -/
theorem assertIndexRange_unsigned_counterexample :
    ¬ (∀ t : Int, t < 0 → ∀ u : Nat, u < 2 ^ 32 →
        assertIndexRangeTriggersIntUint t u = true) := by
  intro h
  have hc := h (-2) (by norm_num) (2 ^ 32 - 1) (by norm_num)
  have hv : assertIndexRangeTriggersIntUint (-2) (2 ^ 32 - 1) = false := by
    simp [assertIndexRangeTriggersIntUint, compare_less_than_int_uint,
      toUnsigned32]
  rw [hc] at hv
  cases hv

end DealII
